import Mathlib

/-!
# Verification of the stt-app recorder UI and transcription proxy

Shallow embedding of the repository's four source files:

* `src/components/TibetanMicSTT.tsx` — the recorder component: its eight
  `useState` hooks become the fields of `ComponentState`, its refs
  (`mediaRecorderRef`, `timerRef`) and the browser-side object-URL store
  become the extra fields of `Session`, and each handler
  (`startRecording`, `stopRecording`, `discardRecording`,
  `sendAudioToAPI`, the countdown-interval callback, the `useEffect`
  cleanup) becomes a function `Session → Session`.
* the Next.js API route (`POST /api/stt`) becomes `apiSttPOST`.
* `next.config.js` becomes `nextConfigHeaderRules` with a small
  Permissions-Policy directive semantics.

React's `useEffect` with dependency list `[audioUrl]` is modelled
explicitly: `Session.effectUrl` is the `audioUrl` value captured by the
closure of the currently installed effect cleanup; whenever a handler
changes `audioUrl`, React runs the previous cleanup (which revokes the
captured URL and clears the interval) and installs a new one — this is
`effectCycle`.  Object URLs are numbered by creation (`UrlStore.nextId`)
and `UrlStore.revokeCount` counts `URL.revokeObjectURL` calls per URL.

Asynchrony is modelled by splitting `sendAudioToAPI` at its `await`
points into `sendAudioToAPIStart` (the synchronous prefix up to issuing
the fetch) and `sendAudioToAPIResolve` (the continuation that receives
the fetch outcome), and by letting the `MediaRecorder.onstop` handler
(`recorderOnstop`) run as part of the stop flow.  `MediaRecorder.stop()`
and the local `fetch(audioUrl)` are modelled as succeeding; the
`try/catch` around them is noted where relevant.
-/

namespace SttApp

/-- Microphone permission state, `navigator.permissions` result
(`'prompt' | 'granted' | 'denied'`). -/
inductive Perm where
  | prompt
  | granted
  | denied
deriving DecidableEq, Repr

/-- The eight `useState` hooks of `TibetanMicSTT`, in source order.
`remainingTime` is an `Int` (a JS number holding an integer here);
`audioUrl` is `none` for `null`, `some u` for object URL number `u`. -/
structure ComponentState where
  isRecording : Bool
  transcription : String
  error : String
  isLoading : Bool
  remainingTime : Int
  audioUrl : Option Nat
  isPlaying : Bool
  micPermission : Perm
deriving DecidableEq, Repr

/-- `MAX_RECORDING_TIME = 120` (seconds). -/
def MAX_RECORDING_TIME : Int := 120

/-- Browser-side object-URL bookkeeping: `nextId` numbers URLs in
creation order; `created u` records that `URL.createObjectURL` has
produced URL `u`; `revokeCount u` counts `URL.revokeObjectURL(u)` calls. -/
structure UrlStore where
  nextId : Nat
  created : Nat → Bool
  revokeCount : Nat → Nat

/-- `URL.createObjectURL`: returns the fresh URL and the updated store. -/
def createUrl (st : UrlStore) : Nat × UrlStore :=
  (st.nextId,
   { st with
      nextId := st.nextId + 1
      created := fun v => if v = st.nextId then true else st.created v })

/-- `URL.revokeObjectURL(u)`. -/
def revokeUrl (u : Nat) (st : UrlStore) : UrlStore :=
  { st with
     revokeCount := fun v => if v = u then st.revokeCount v + 1 else st.revokeCount v }

/-- A URL is live when it has been created and never revoked. -/
def UrlStore.isLive (st : UrlStore) (u : Nat) : Prop :=
  st.created u = true ∧ st.revokeCount u = 0

/-- The whole client session: component state, refs, the installed
effect cleanup's captured `audioUrl` (`effectUrl`), the URL store, and
instrumentation (`pending` in-flight submit requests, total
`requestsIssued`). `recorder` models `mediaRecorderRef.current ≠ null`,
`tracksLive` that the captured stream's tracks are not yet stopped,
`timerActive` that the countdown interval is installed.
`timerIsRecording` is the `isRecording` value captured by the closure
of the `stopRecording` const that the installed interval callback
references: the interval callback (lines 138–147) holds the
`stopRecording` of the render in which `startRecording` ran, and that
closure's `isRecording` is that render's state value — it does not
track later state updates. -/
structure Session where
  comp : ComponentState
  recorder : Bool
  tracksLive : Bool
  timerActive : Bool
  timerIsRecording : Bool
  effectUrl : Option Nat
  store : UrlStore
  pending : Nat
  requestsIssued : Nat
  mounted : Bool

/-- React re-running the `useEffect` with deps `[audioUrl]`: when the
dependency changed, the previous cleanup runs — `clearInterval` on the
timer and `URL.revokeObjectURL(audioUrl)` for the closure's captured
`audioUrl` (lines 67–75 of the component) — and the new effect is
installed, capturing the current `audioUrl`. -/
def effectCycle (s : Session) : Session :=
  if s.comp.audioUrl = s.effectUrl then s
  else
    { s with
       store := match s.effectUrl with
         | some u => revokeUrl u s.store
         | none => s.store
       timerActive := false
       effectUrl := s.comp.audioUrl }

/-- The `mediaRecorderRef.current.onstop` handler (lines 121–131):
builds the blob from the buffered chunks, `URL.createObjectURL` it,
`setAudioUrl(url)`, stops the stream's tracks; React then re-runs the
effect since `audioUrl` changed. -/
def recorderOnstop (s : Session) : Session :=
  let p := createUrl s.store
  effectCycle
    { s with
       comp := { s.comp with audioUrl := some p.1 }
       store := p.2
       tracksLive := false }

/-- The body of `stopRecording` (lines 162–178) as invoked through a
closure whose captured `isRecording` is `capturedIsRecording`.  Guard:
`mediaRecorderRef.current && isRecording` — `mediaRecorderRef` is a ref
(always current) but `isRecording` is a plain `useState` value read
from the invoking closure's render scope.  Inside the guard: `stop()`
the recorder (so `onstop` fires), stop the stream tracks,
`setIsRecording(false)`, `clearInterval`.  The `catch` branch (recorder
`stop()` throwing) is not modelled: `stop()` is taken to succeed. -/
def stopRecordingWith (capturedIsRecording : Bool) (s : Session) : Session :=
  if s.recorder && capturedIsRecording then
    recorderOnstop
      { s with
         comp := { s.comp with isRecording := false }
         tracksLive := false
         timerActive := false }
  else s

/-- `stopRecording` invoked from the current render (the stop button's
`onClick`): its closure's `isRecording` is the current state value. -/
def stopRecording (s : Session) : Session :=
  stopRecordingWith s.comp.isRecording s

/-- One firing of the countdown interval callback (lines 138–147):
`setRemainingTime(prev => ...)` — when `prev <= 1`, call
`stopRecording()`, `clearInterval`, and return 0; otherwise `prev - 1`.
The `stopRecording` the callback invokes is the stale closure installed
with the interval, whose captured `isRecording` is
`s.timerIsRecording` (the value of the render in which
`startRecording` ran — `false` for every reachable install), not the
current state. -/
def timerTick (s : Session) : Session :=
  if s.timerActive then
    if s.comp.remainingTime ≤ 1 then
      let s1 := stopRecordingWith s.timerIsRecording s
      { s1 with
         comp := { s1.comp with remainingTime := 0 }
         timerActive := false }
    else { s with comp := { s.comp with remainingTime := s.comp.remainingTime - 1 } }
  else s

/-- The ordered MIME-type preference list (lines 97–102). -/
def mimeTypes : List String :=
  ["audio/webm", "audio/mp4", "audio/aac", "audio/wav"]

/-- MIME selection in `startRecording` (lines 104–110): the first type
the platform supports wins; `none` models the empty `options` object,
i.e. falling back to the platform default. -/
def selectMimeType (isTypeSupported : String → Bool) : Option String :=
  mimeTypes.find? isTypeSupported

/-- Blob type chosen in `onstop` (line 124): `audio/mp4` on iOS,
`audio/wav` otherwise. -/
def finalBlobType (isIOS : Bool) : String :=
  if isIOS then "audio/mp4" else "audio/wav"

/-- `startRecording` (lines 77–153): clear error, clear `audioUrl`,
clear transcription (so the effect re-runs if `audioUrl` changed), then
`getUserMedia`; `granted = false` is the `catch` branch where microphone
access fails with message `msg`; on success create the recorder, start
it, `setIsRecording(true)`, `setRemainingTime(120)`, install the
interval.  The interval callback references this render's
`stopRecording` closure, so the `isRecording` it will later read is
this render's state value `s.comp.isRecording` (not any later value) —
recorded in `timerIsRecording`. -/
def startRecording (granted : Bool) (msg : String) (s : Session) : Session :=
  let s1 := effectCycle
    { s with
       comp := { s.comp with error := "", audioUrl := none, transcription := "" } }
  if granted then
    { s1 with
       comp := { s1.comp with isRecording := true, remainingTime := MAX_RECORDING_TIME }
       recorder := true
       tracksLive := true
       timerActive := true
       timerIsRecording := s.comp.isRecording }
  else
    { s1 with
       comp := { s1.comp with error := "Error accessing microphone: " ++ msg } }

/-- `discardRecording` (lines 195–202): if an `audioUrl` exists, revoke
it and `setAudioUrl(null)`; clear transcription and error; React then
re-runs the effect when `audioUrl` changed. -/
def discardRecording (s : Session) : Session :=
  match s.comp.audioUrl with
  | some u =>
      effectCycle
        { s with
           comp := { s.comp with audioUrl := none, transcription := "", error := "" }
           store := revokeUrl u s.store }
  | none =>
      { s with comp := { s.comp with transcription := "", error := "" } }

/-- `handlePlayPause` (lines 180–189). -/
def handlePlayPause (s : Session) : Session :=
  { s with comp := { s.comp with isPlaying := !s.comp.isPlaying } }

/-- `handleAudioEnded` (lines 191–193). -/
def handleAudioEnded (s : Session) : Session :=
  { s with comp := { s.comp with isPlaying := false } }

/-- `Response.ok` of the Fetch API: status in the inclusive range
200–299; the code checks `!apiResponse.ok` (line 229). -/
def responseOk (status : Nat) : Bool :=
  200 ≤ status && status ≤ 299

/-- The proxy response as the client sees it.  `error` and `output`
are the two fields the client reads (`MonlamAPIResponse`); the empty
string models an absent field — exactly JS string falsiness, which is
what `if (data.error)` / `if (data.output)` test. -/
structure ApiData where
  error : String
  output : String
deriving DecidableEq, Repr

/-- Outcome of the `fetch('/api/stt')` call as the `await`s see it:
either a transport or JSON-parse failure throwing an error with message
`msg` (both `fetch` rejecting and `apiResponse.json()` rejecting land in
the same `catch`), or an HTTP response with a parsed JSON body. -/
inductive FetchOutcome where
  | networkError (msg : String)
  | response (status : Nat) (data : ApiData)
deriving DecidableEq, Repr

/-- Synchronous prefix of `sendAudioToAPI` (lines 204–223): the
`if (!audioUrl) return` guard, then `setIsLoading(true)`,
`setError('')`, and the single `fetch` to `/api/stt` (counted in
`pending`/`requestsIssued`).  Note it does not touch `transcription`. -/
def sendAudioToAPIStart (s : Session) : Session :=
  match s.comp.audioUrl with
  | none => s
  | some _ =>
      { s with
         comp := { s.comp with isLoading := true, error := "" }
         pending := s.pending + 1
         requestsIssued := s.requestsIssued + 1 }

/-- The continuation of `sendAudioToAPI` after its `await`s (lines
225–249) applied to the component state: `!apiResponse.ok` throws
`HTTP error! status: N`; `data.error` truthy throws it; `data.output`
truthy is shown; otherwise the unexpected-format error; every thrown
error is caught and prefixed; `finally` clears `isLoading`. -/
def sendAudioToAPIResolveComp (o : FetchOutcome) (c : ComponentState) : ComponentState :=
  match o with
  | .networkError msg =>
      { c with error := "Failed to convert speech to text: " ++ msg, isLoading := false }
  | .response status data =>
      if !responseOk status then
        { c with
           error := "Failed to convert speech to text: HTTP error! status: "
             ++ toString status
           isLoading := false }
      else if data.error ≠ "" then
        { c with
           error := "Failed to convert speech to text: " ++ data.error
           isLoading := false }
      else if data.output ≠ "" then
        { c with transcription := data.output, isLoading := false }
      else
        { c with error := "Unexpected response format from API", isLoading := false }

/-- The resolve step on the whole session: the pending fetch settles. -/
def sendAudioToAPIResolve (o : FetchOutcome) (s : Session) : Session :=
  { s with
     comp := sendAudioToAPIResolveComp o s.comp
     pending := s.pending - 1 }

/-- Component unmount: React runs the installed effect cleanup
(`clearInterval` and `URL.revokeObjectURL(audioUrl)`, lines 67–74) and
discards the component state (modelled by clearing `audioUrl` and
`mounted`). -/
def unmountComponent (s : Session) : Session :=
  { s with
     store := match s.effectUrl with
       | some u => revokeUrl u s.store
       | none => s.store
     timerActive := false
     effectUrl := none
     comp := { s.comp with audioUrl := none }
     mounted := false }

/-! ## The render function and the event-step machine -/

/-- Visibility/enabledness of a rendered control. -/
inductive ControlState where
  | absent
  | disabled
  | enabled
deriving DecidableEq, Repr

/-- The submit (`Send to API`) button as rendered (lines 297–322): it
exists only inside the `{audioUrl && ...}` block and carries
`disabled={isLoading}`. -/
def submitControl (c : ComponentState) : ControlState :=
  match c.audioUrl with
  | none => .absent
  | some _ => if c.isLoading then .disabled else .enabled

/-- The record/stop button (lines 277–294): rendered only when
`!audioUrl`, `disabled={isLoading || micPermission === 'denied'}`;
its click handler is `stopRecording` while recording and
`handleStartRecordingClick` otherwise. -/
def recordControl (c : ComponentState) : ControlState :=
  match c.audioUrl with
  | some _ => .absent
  | none =>
      if c.isLoading || decide (c.micPermission = .denied) then .disabled else .enabled

/-- The error banner is rendered iff `error` is truthy (line 350). -/
def errorShown (c : ComponentState) : Bool :=
  c.error ≠ ""

/-- The transcription block is rendered iff `transcription` is truthy
(line 358). -/
def transcriptionShown (c : ComponentState) : Bool :=
  c.transcription ≠ ""

/-- Session events: user clicks on rendered controls, the interval
firing, the pending fetch settling, a permission change, unmount. -/
inductive Event where
  | startClick (granted : Bool) (msg : String)
  | stopClick
  | tick
  | discardClick
  | playPauseClick
  | audioEnded
  | submitClick
  | submitSettles (o : FetchOutcome)
  | permChange (p : Perm)
  | unmount
deriving DecidableEq, Repr

/-- One step of the session: each user event is gated by the render
(the control must be rendered and enabled for the handler to be
invocable), `tick` by the interval being installed, `submitSettles` by
a fetch being in flight, and everything by the component being mounted. -/
def step (s : Session) (e : Event) : Session :=
  if s.mounted then
    match e with
    | .startClick granted msg =>
        if recordControl s.comp = .enabled ∧ s.comp.isRecording = false then
          startRecording granted msg s
        else s
    | .stopClick =>
        if recordControl s.comp = .enabled ∧ s.comp.isRecording = true then
          stopRecording s
        else s
    | .tick => timerTick s
    | .discardClick =>
        if s.comp.audioUrl ≠ none then discardRecording s else s
    | .playPauseClick =>
        if s.comp.audioUrl ≠ none then handlePlayPause s else s
    | .audioEnded => handleAudioEnded s
    | .submitClick =>
        if submitControl s.comp = .enabled then sendAudioToAPIStart s else s
    | .submitSettles o =>
        if s.pending = 1 then sendAudioToAPIResolve o s else s
    | .permChange p =>
        { s with comp := { s.comp with micPermission := p } }
    | .unmount => unmountComponent s
  else s

/-- The freshly mounted component: the `useState` initial values. -/
def initSession : Session :=
  { comp :=
      { isRecording := false
        transcription := ""
        error := ""
        isLoading := false
        remainingTime := MAX_RECORDING_TIME
        audioUrl := none
        isPlaying := false
        micPermission := .prompt }
    recorder := false
    tracksLive := false
    timerActive := false
    timerIsRecording := false
    effectUrl := none
    store := { nextId := 0, created := fun _ => false, revokeCount := fun _ => 0 }
    pending := 0
    requestsIssued := 0
    mounted := true }

/-- Run a list of events from the initial session. -/
def run (l : List Event) : Session :=
  l.foldl step initSession

/-! ## The transcription proxy (`app/api/stt/route.ts`) -/

/-- JSON values, for stating that the proxy relays the upstream body
verbatim. -/
inductive Json where
  | null
  | bool (b : Bool)
  | num (n : Int)
  | str (s : String)
  | arr (xs : List Json)
  | obj (fields : List (String × Json))

/-- What happens inside the `try` block of the route handler: reading
the inbound form data (`request.formData()`), the `fetch` to the
external endpoint, and `response.json()` can each throw, all landing in
the one `catch`; otherwise the parsed upstream JSON body is available. -/
inductive ProxyTryOutcome where
  | inboundFormError
  | upstreamFetchError
  | upstreamParseError
  | upstreamJson (body : Json)

/-- An HTTP response from the proxy: status and JSON body. -/
structure ProxyResponse where
  status : Nat
  body : Json

/-- The fixed body of the `catch` branch:
`{ error: 'Error processing speech to text' }`. -/
def internalErrorBody : Json :=
  .obj [("error", .str "Error processing speech to text")]

/-- The `POST` handler of the route: on any throw inside the `try`
block, `NextResponse.json({ error: ... }, { status: 500 })`; otherwise
`NextResponse.json(data)` — the upstream JSON body relayed with the
default status 200. -/
def apiSttPOST (o : ProxyTryOutcome) : ProxyResponse :=
  match o with
  | .inboundFormError => ⟨500, internalErrorBody⟩
  | .upstreamFetchError => ⟨500, internalErrorBody⟩
  | .upstreamParseError => ⟨500, internalErrorBody⟩
  | .upstreamJson body => ⟨200, body⟩

/-! ## `next.config.js` header rules and Permissions-Policy semantics -/

/-- The header rules of `nextConfig.headers`: one rule with source
pattern `/:path*` setting `Permissions-Policy: microphone=*`. -/
def nextConfigHeaderRules : List (String × List (String × String)) :=
  [("/:path*", [("Permissions-Policy", "microphone=*")])]

/-- Next.js source-pattern matching, specialised to the patterns this
config uses: `/:path*` matches every request path (a path starts with
`/`; the `:path*` parameter matches zero or more segments). -/
def sourceMatches (pattern path : String) : Bool :=
  if pattern = "/:path*" then path.toList.head? = some '/'
  else pattern = path

/-- The headers the server attaches to the response for `path`. -/
def headersForPath (path : String) : List (String × String) :=
  (nextConfigHeaderRules.filter fun r => sourceMatches r.1 path).flatMap Prod.snd

/-- One entry of a Permissions-Policy allowlist. -/
inductive AllowlistEntry where
  | star
  | self
  | origin (o : String)
deriving DecidableEq, Repr

/-- Split a character list on a separator (the groups between
occurrences of `c`, in order; always nonempty). -/
def splitOnChar (c : Char) : List Char → List (List Char)
  | [] => [[]]
  | x :: xs =>
      let r := splitOnChar c xs
      if x = c then [] :: r
      else (x :: r.headI) :: r.tail

/-- Parse one allowlist token: `*` is the wildcard, `self` (bare or
quoted) the page's own origin, anything else a listed origin. -/
def parseAllowlistEntry (tok : List Char) : Option AllowlistEntry :=
  if tok = [] then none
  else if tok = ['*'] then some .star
  else if tok.asString = "self" || tok.asString = "\x22self\x22" then some .self
  else some (.origin tok.asString)

/-- Parse a single-directive Permissions-Policy value such as
`microphone=*` or `microphone=(self)` into the feature name and its
allowlist. -/
def parseDirective (s : String) : Option (String × List AllowlistEntry) :=
  match splitOnChar '=' s.toList with
  | [feature, al] =>
      let inner :=
        if al.head? = some '(' && al.getLast? = some ')' then (al.drop 1).dropLast
        else al
      some (feature.asString, (splitOnChar ' ' inner).filterMap parseAllowlistEntry)
  | _ => none

/-- Whether an allowlist permits the feature to `requestOrigin` when the
page's own origin is `pageOrigin`. -/
def allowlistPermits (entries : List AllowlistEntry) (requestOrigin pageOrigin : String) :
    Bool :=
  entries.any fun e =>
    match e with
    | .star => true
    | .self => requestOrigin = pageOrigin
    | .origin o => requestOrigin = o

/-! ## Store lemmas -/

theorem revokeUrl_created (u v : Nat) (st : UrlStore) :
    (revokeUrl u st).created v = st.created v := rfl

theorem revokeUrl_nextId (u : Nat) (st : UrlStore) :
    (revokeUrl u st).nextId = st.nextId := rfl

theorem revokeUrl_count_self (u : Nat) (st : UrlStore) :
    (revokeUrl u st).revokeCount u = st.revokeCount u + 1 := by
  simp [revokeUrl]

theorem revokeUrl_count_other {u v : Nat} (st : UrlStore) (h : v ≠ u) :
    (revokeUrl u st).revokeCount v = st.revokeCount v := by
  simp [revokeUrl, h]

/-! ## The session invariant -/

/-- Invariant maintained by every event step:
the installed effect cleanup captured the current `audioUrl`; the
current `audioUrl` is created and unrevoked; every live URL is the
current `audioUrl` (so at most one URL is live); created URLs are below
`nextId`; URLs never created were never revoked; `pending` mirrors the
`isLoading` flag; an installed interval implies recording with at least
one second left; every installed interval's `stopRecording` closure
captured `isRecording = false` (the interval is only ever installed
from a render where recording had not started); recording implies a
recorder exists, no finalized `audioUrl`, and a countdown within
`[0, 120]` (0 is reachable: the countdown freezes at 0 while recording
continues, because the stale-closure auto-stop is a no-op). -/
structure Inv (s : Session) : Prop where
  effect_eq : s.effectUrl = s.comp.audioUrl
  url_live : ∀ u, s.comp.audioUrl = some u →
    s.store.created u = true ∧ s.store.revokeCount u = 0
  live_ref : ∀ u, s.store.isLive u → s.comp.audioUrl = some u
  created_lt : ∀ u, s.store.created u = true → u < s.store.nextId
  uncreated_unrevoked : ∀ u, s.store.created u = false → s.store.revokeCount u = 0
  pending_eq : s.pending = if s.comp.isLoading then 1 else 0
  timer_rec : s.timerActive = true → s.comp.isRecording = true ∧ 1 ≤ s.comp.remainingTime
  timer_closure : s.timerActive = true → s.timerIsRecording = false
  rec_inv : s.comp.isRecording = true → s.recorder = true ∧ s.comp.audioUrl = none ∧
    0 ≤ s.comp.remainingTime ∧ s.comp.remainingTime ≤ 120

theorem inv_init : Inv initSession := by
  constructor <;> simp [initSession, UrlStore.isLive, MAX_RECORDING_TIME]

theorem created_nextId_false {s : Session} (hI : Inv s) :
    s.store.created s.store.nextId = false := by
  by_contra h
  have h' : s.store.created s.store.nextId = true := by
    cases hc : s.store.created s.store.nextId
    · exact absurd hc h
    · rfl
  exact absurd (hI.created_lt _ h') (lt_irrefl _)

theorem recordControl_enabled {c : ComponentState} (h : recordControl c = .enabled) :
    c.audioUrl = none ∧ c.isLoading = false ∧ c.micPermission ≠ .denied := by
  unfold recordControl at h
  cases hu : c.audioUrl with
  | some u => rw [hu] at h; exact absurd h (by simp)
  | none =>
      rw [hu] at h
      refine ⟨rfl, ?_, ?_⟩
      · cases hl : c.isLoading
        · rfl
        · rw [hl] at h; simp at h
      · intro hd
        rw [hd] at h
        simp at h

theorem submitControl_enabled {c : ComponentState} (h : submitControl c = .enabled) :
    c.audioUrl ≠ none ∧ c.isLoading = false := by
  unfold submitControl at h
  cases hu : c.audioUrl with
  | none => rw [hu] at h; exact absurd h (by simp)
  | some u =>
      rw [hu] at h
      refine ⟨by simp, ?_⟩
      cases hl : c.isLoading
      · rfl
      · rw [hl] at h; simp at h

/-- Starting with microphone access granted (from a state with no
finalized URL, so the effect does not re-run): the explicit result. -/
theorem startRecording_eq_granted (m : String) {s : Session}
    (he : s.effectUrl = none) :
    startRecording true m s =
      { s with
         comp := { s.comp with
                    error := ""
                    audioUrl := none
                    transcription := ""
                    isRecording := true
                    remainingTime := MAX_RECORDING_TIME }
         recorder := true
         tracksLive := true
         timerActive := true
         timerIsRecording := s.comp.isRecording } := by
  simp [startRecording, effectCycle, he]

/-- Starting with microphone access failing: only the error message is
set (besides the clears that already ran before the `await`). -/
theorem startRecording_eq_failed (m : String) {s : Session}
    (he : s.effectUrl = none) :
    startRecording false m s =
      { s with
         comp := { s.comp with
                    error := "Error accessing microphone: " ++ m
                    audioUrl := none
                    transcription := "" } } := by
  simp [startRecording, effectCycle, he]

theorem inv_startRecording (g : Bool) (m : String) {s : Session} (hI : Inv s)
    (hurl : s.comp.audioUrl = none) (hrec0 : s.comp.isRecording = false) :
    Inv (startRecording g m s) := by
  have he : s.effectUrl = none := hI.effect_eq.trans hurl
  have hnolive : ∀ u, s.store.isLive u → False := by
    intro u h
    have := hI.live_ref u h
    rw [hurl] at this
    exact Option.noConfusion this
  cases g with
  | true =>
      rw [startRecording_eq_granted m he]
      refine ⟨he, ?_, ?_, hI.created_lt, hI.uncreated_unrevoked, hI.pending_eq,
        ?_, ?_, ?_⟩
      · intro u hu
        exact Option.noConfusion hu
      · intro u hu
        exact absurd hu (hnolive u)
      · intro _
        refine ⟨rfl, ?_⟩
        show (1:Int) ≤ MAX_RECORDING_TIME
        decide
      · intro _
        exact hrec0
      · intro _
        refine ⟨rfl, rfl, ?_, ?_⟩
        · show (0:Int) ≤ MAX_RECORDING_TIME
          decide
        · show MAX_RECORDING_TIME ≤ (120:Int)
          decide
  | false =>
      rw [startRecording_eq_failed m he]
      refine ⟨?_, ?_, ?_, hI.created_lt, hI.uncreated_unrevoked, hI.pending_eq,
        ?_, ?_, ?_⟩
      · exact he
      · intro u hu
        exact Option.noConfusion hu
      · intro u hu
        exact absurd hu (hnolive u)
      · intro ht
        exact hI.timer_rec ht
      · intro ht
        exact hI.timer_closure ht
      · intro hr
        have h := hI.rec_inv hr
        exact ⟨h.1, rfl, h.2.2⟩

/-- Stopping while recording (with the effect closure holding no URL, as
recording guarantees): the explicit resulting session. -/
theorem stopRecording_eq {s : Session} (hg : (s.recorder && s.comp.isRecording) = true)
    (he : s.effectUrl = none) :
    stopRecording s =
      { comp := { s.comp with isRecording := false, audioUrl := some s.store.nextId }
        recorder := s.recorder
        tracksLive := false
        timerActive := false
        timerIsRecording := s.timerIsRecording
        effectUrl := some s.store.nextId
        store :=
          { nextId := s.store.nextId + 1
            created := fun v => decide (v = s.store.nextId) || s.store.created v
            revokeCount := s.store.revokeCount }
        pending := s.pending
        requestsIssued := s.requestsIssued
        mounted := s.mounted } := by
  simp [stopRecording, stopRecordingWith, hg, recorderOnstop, createUrl, effectCycle, he]

theorem inv_stopRecording {s : Session} (hI : Inv s) : Inv (stopRecording s) := by
  by_cases hg : (s.recorder && s.comp.isRecording) = true
  · have hrec : s.comp.isRecording = true := by
      simp only [Bool.and_eq_true] at hg
      exact hg.2
    have hurl : s.comp.audioUrl = none := (hI.rec_inv hrec).2.1
    have he : s.effectUrl = none := hI.effect_eq.trans hurl
    have hfresh : s.store.created s.store.nextId = false := created_nextId_false hI
    rw [stopRecording_eq hg he]
    refine ⟨rfl, ?_, ?_, ?_, ?_, hI.pending_eq, ?_, ?_, ?_⟩
    · intro u hu
      have hu' : some s.store.nextId = some u := hu
      injection hu' with h
      subst h
      constructor
      · show (decide (s.store.nextId = s.store.nextId) || s.store.created s.store.nextId)
          = true
        simp
      · exact hI.uncreated_unrevoked _ hfresh
    · intro u hu
      have hu' : (decide (u = s.store.nextId) || s.store.created u) = true ∧
          s.store.revokeCount u = 0 := hu
      obtain ⟨hc, hr⟩ := hu'
      simp only [Bool.or_eq_true] at hc
      rcases hc with h | h
      · have hu2 : u = s.store.nextId := of_decide_eq_true h
        show some s.store.nextId = some u
        rw [hu2]
      · have hlive : s.store.isLive u := ⟨h, hr⟩
        have h2 := hI.live_ref u hlive
        rw [hurl] at h2
        exact Option.noConfusion h2
    · intro u hc
      have hc' : (decide (u = s.store.nextId) || s.store.created u) = true := hc
      simp only [Bool.or_eq_true] at hc'
      rcases hc' with h | h
      · have hu2 : u = s.store.nextId := of_decide_eq_true h
        rw [hu2]
        exact Nat.lt_succ_self _
      · exact Nat.lt_succ_of_lt (hI.created_lt u h)
    · intro u hc
      have hc' : (decide (u = s.store.nextId) || s.store.created u) = false := hc
      have h2 := Bool.or_eq_false_iff.mp hc'
      exact hI.uncreated_unrevoked u h2.2
    · intro h
      exact Bool.noConfusion h
    · intro h
      exact Bool.noConfusion h
    · intro h
      exact Bool.noConfusion h
  · have hs : stopRecording s = s := by
      unfold stopRecording stopRecordingWith
      rw [if_neg hg]
    rw [hs]
    exact hI

/-- With the interval's stale closure (captured `isRecording = false`,
as on every reachable install), the auto-stop invocation is a no-op. -/
theorem stopRecordingWith_false_noop (s : Session) :
    stopRecordingWith false s = s := by
  unfold stopRecordingWith
  rw [Bool.and_false]
  simp

/-- The tick that reaches 0: the stale-closure `stopRecording()` is a
no-op, so only the countdown is zeroed and the interval cleared — the
recorder keeps recording and no audio object is finalized. -/
theorem timerTick_timeout_eq {s : Session} (ht : s.timerActive = true)
    (hle : s.comp.remainingTime ≤ 1) (hcap : s.timerIsRecording = false) :
    timerTick s =
      { s with
         comp := { s.comp with remainingTime := 0 }
         timerActive := false } := by
  have hnoop : stopRecordingWith s.timerIsRecording s = s := by
    rw [hcap]
    exact stopRecordingWith_false_noop s
  unfold timerTick
  rw [if_pos ht, if_pos hle, hnoop]

theorem inv_timerTick {s : Session} (hI : Inv s) : Inv (timerTick s) := by
  by_cases ht : s.timerActive = true
  · have hrec : s.comp.isRecording = true := (hI.timer_rec ht).1
    have hrt : 1 ≤ s.comp.remainingTime := (hI.timer_rec ht).2
    by_cases hle : s.comp.remainingTime ≤ 1
    · rw [timerTick_timeout_eq ht hle (hI.timer_closure ht)]
      refine ⟨hI.effect_eq, hI.url_live, hI.live_ref, hI.created_lt,
        hI.uncreated_unrevoked, hI.pending_eq, ?_, ?_, ?_⟩
      · intro h
        exact Bool.noConfusion h
      · intro h
        exact Bool.noConfusion h
      · intro h
        have h2 := hI.rec_inv h
        refine ⟨h2.1, h2.2.1, ?_, ?_⟩
        · show (0:Int) ≤ 0
          decide
        · show (0:Int) ≤ 120
          decide
    · have heq : timerTick s =
          { s with comp := { s.comp with remainingTime := s.comp.remainingTime - 1 } } := by
        unfold timerTick
        rw [if_pos ht, if_neg hle]
      rw [heq]
      have hgt : (1:Int) < s.comp.remainingTime := lt_of_not_ge fun h => hle h
      refine ⟨hI.effect_eq, hI.url_live, hI.live_ref, hI.created_lt,
        hI.uncreated_unrevoked, hI.pending_eq, ?_, ?_, ?_⟩
      · intro _
        refine ⟨hrec, ?_⟩
        show (1:Int) ≤ s.comp.remainingTime - 1
        omega
      · intro _
        exact hI.timer_closure ht
      · intro _
        have h := hI.rec_inv hrec
        refine ⟨h.1, h.2.1, ?_, ?_⟩
        · show (0:Int) ≤ s.comp.remainingTime - 1
          omega
        · show s.comp.remainingTime - 1 ≤ 120
          have h120 := h.2.2.2
          omega
  · have hs : timerTick s = s := by
      unfold timerTick
      rw [if_neg ht]
    rw [hs]
    exact hI

/-- Discarding a finalized recording: the direct revoke in
`discardRecording` composed with the effect-cleanup revoke that React
runs because `audioUrl` changed — the URL ends up revoked twice. -/
theorem discardRecording_eq {s : Session} {u : Nat} (hu : s.comp.audioUrl = some u)
    (he : s.effectUrl = some u) :
    discardRecording s =
      { comp := { s.comp with audioUrl := none, transcription := "", error := "" }
        recorder := s.recorder
        tracksLive := s.tracksLive
        timerActive := false
        timerIsRecording := s.timerIsRecording
        effectUrl := none
        store := revokeUrl u (revokeUrl u s.store)
        pending := s.pending
        requestsIssued := s.requestsIssued
        mounted := s.mounted } := by
  simp [discardRecording, hu, effectCycle, he]

theorem inv_discardRecording {s : Session} (hI : Inv s) : Inv (discardRecording s) := by
  cases hu : s.comp.audioUrl with
  | none =>
      have hs : discardRecording s =
          { s with comp := { s.comp with transcription := "", error := "" } } := by
        simp [discardRecording, hu]
      rw [hs]
      exact ⟨hI.effect_eq, hI.url_live, hI.live_ref, hI.created_lt,
        hI.uncreated_unrevoked, hI.pending_eq, hI.timer_rec, hI.timer_closure,
        hI.rec_inv⟩
  | some u =>
      have he : s.effectUrl = some u := hI.effect_eq.trans hu
      have hcr := hI.url_live u hu
      rw [discardRecording_eq hu he]
      refine ⟨rfl, ?_, ?_, hI.created_lt, ?_, hI.pending_eq, ?_, ?_, ?_⟩
      · intro v hv
        exact Option.noConfusion hv
      · intro v hv
        have hv' : s.store.created v = true ∧
            (revokeUrl u (revokeUrl u s.store)).revokeCount v = 0 := hv
        obtain ⟨hc, hr⟩ := hv'
        by_cases hvu : v = u
        · subst hvu
          rw [revokeUrl_count_self, revokeUrl_count_self] at hr
          exact absurd hr (by simp)
        · rw [revokeUrl_count_other _ hvu, revokeUrl_count_other _ hvu] at hr
          have h2 := hI.live_ref v ⟨hc, hr⟩
          rw [hu] at h2
          injection h2 with h3
          exact absurd h3.symm hvu
      · intro v hc
        have hc' : s.store.created v = false := hc
        by_cases hvu : v = u
        · subst hvu
          rw [hcr.1] at hc'
          exact Bool.noConfusion hc'
        · show (revokeUrl u (revokeUrl u s.store)).revokeCount v = 0
          rw [revokeUrl_count_other _ hvu, revokeUrl_count_other _ hvu]
          exact hI.uncreated_unrevoked v hc'
      · intro h
        exact Bool.noConfusion h
      · intro h
        exact Bool.noConfusion h
      · intro h
        have h2 := hI.rec_inv h
        exact ⟨h2.1, rfl, h2.2.2⟩

theorem inv_handlePlayPause {s : Session} (hI : Inv s) : Inv (handlePlayPause s) :=
  ⟨hI.effect_eq, hI.url_live, hI.live_ref, hI.created_lt, hI.uncreated_unrevoked,
   hI.pending_eq, hI.timer_rec, hI.timer_closure, hI.rec_inv⟩

theorem inv_handleAudioEnded {s : Session} (hI : Inv s) : Inv (handleAudioEnded s) :=
  ⟨hI.effect_eq, hI.url_live, hI.live_ref, hI.created_lt, hI.uncreated_unrevoked,
   hI.pending_eq, hI.timer_rec, hI.timer_closure, hI.rec_inv⟩

theorem inv_sendAudioToAPIStart {s : Session} (hI : Inv s)
    (hl : s.comp.isLoading = false) :
    Inv (sendAudioToAPIStart s) := by
  cases hu : s.comp.audioUrl with
  | none =>
      have hs : sendAudioToAPIStart s = s := by
        simp [sendAudioToAPIStart, hu]
      rw [hs]
      exact hI
  | some u =>
      have hs : sendAudioToAPIStart s =
          { s with
             comp := { s.comp with isLoading := true, error := "" }
             pending := s.pending + 1
             requestsIssued := s.requestsIssued + 1 } := by
        simp [sendAudioToAPIStart, hu]
      rw [hs]
      refine ⟨hI.effect_eq, hI.url_live, hI.live_ref, hI.created_lt,
        hI.uncreated_unrevoked, ?_, hI.timer_rec, hI.timer_closure, hI.rec_inv⟩
      show s.pending + 1 = if true then 1 else 0
      rw [hI.pending_eq, hl]
      decide

/-- Frame facts about the submit continuation: it never touches
`audioUrl`, `isRecording` or `remainingTime`, and always ends with
`isLoading = false` (the `finally`). -/
theorem resolveComp_frame (o : FetchOutcome) (c : ComponentState) :
    (sendAudioToAPIResolveComp o c).audioUrl = c.audioUrl ∧
    (sendAudioToAPIResolveComp o c).isRecording = c.isRecording ∧
    (sendAudioToAPIResolveComp o c).remainingTime = c.remainingTime ∧
    (sendAudioToAPIResolveComp o c).isLoading = false := by
  cases o with
  | networkError m => exact ⟨rfl, rfl, rfl, rfl⟩
  | response st d =>
      simp only [sendAudioToAPIResolveComp]
      by_cases h1 : (!responseOk st) = true
      · rw [if_pos h1]
        exact ⟨rfl, rfl, rfl, rfl⟩
      · rw [if_neg h1]
        by_cases h2 : d.error ≠ ""
        · rw [if_pos h2]
          exact ⟨rfl, rfl, rfl, rfl⟩
        · rw [if_neg h2]
          by_cases h3 : d.output ≠ ""
          · rw [if_pos h3]
            exact ⟨rfl, rfl, rfl, rfl⟩
          · rw [if_neg h3]
            exact ⟨rfl, rfl, rfl, rfl⟩

theorem inv_sendAudioToAPIResolve (o : FetchOutcome) {s : Session} (hI : Inv s)
    (hp : s.pending = 1) :
    Inv (sendAudioToAPIResolve o s) := by
  obtain ⟨hau, hrec, hrt, hld⟩ := resolveComp_frame o s.comp
  refine ⟨?_, ?_, ?_, hI.created_lt, hI.uncreated_unrevoked, ?_, ?_, ?_, ?_⟩
  · show s.effectUrl = (sendAudioToAPIResolveComp o s.comp).audioUrl
    rw [hau]
    exact hI.effect_eq
  · intro u hu
    have hu' : (sendAudioToAPIResolveComp o s.comp).audioUrl = some u := hu
    rw [hau] at hu'
    exact hI.url_live u hu'
  · intro u hu
    have h2 := hI.live_ref u hu
    show (sendAudioToAPIResolveComp o s.comp).audioUrl = some u
    rw [hau]
    exact h2
  · show s.pending - 1 = if (sendAudioToAPIResolveComp o s.comp).isLoading then 1 else 0
    rw [hld, hp]
    decide
  · intro h2
    have h2' : s.timerActive = true := h2
    obtain ⟨ha, hb⟩ := hI.timer_rec h2'
    constructor
    · show (sendAudioToAPIResolveComp o s.comp).isRecording = true
      rw [hrec]
      exact ha
    · show (1:Int) ≤ (sendAudioToAPIResolveComp o s.comp).remainingTime
      rw [hrt]
      exact hb
  · intro h2
    exact hI.timer_closure h2
  · intro h2
    have h3 : (sendAudioToAPIResolveComp o s.comp).isRecording = true := h2
    rw [hrec] at h3
    obtain ⟨ha, hb, hc, hd⟩ := hI.rec_inv h3
    refine ⟨ha, ?_, ?_, ?_⟩
    · show (sendAudioToAPIResolveComp o s.comp).audioUrl = none
      rw [hau]
      exact hb
    · show (0:Int) ≤ (sendAudioToAPIResolveComp o s.comp).remainingTime
      rw [hrt]
      exact hc
    · show (sendAudioToAPIResolveComp o s.comp).remainingTime ≤ 120
      rw [hrt]
      exact hd

theorem inv_unmountComponent {s : Session} (hI : Inv s) : Inv (unmountComponent s) := by
  cases hu : s.comp.audioUrl with
  | none =>
      have he : s.effectUrl = none := hI.effect_eq.trans hu
      have hs : unmountComponent s =
          { s with
             timerActive := false
             effectUrl := none
             comp := { s.comp with audioUrl := none }
             mounted := false } := by
        simp [unmountComponent, he]
      rw [hs]
      refine ⟨rfl, ?_, ?_, hI.created_lt, hI.uncreated_unrevoked, hI.pending_eq,
        ?_, ?_, ?_⟩
      · intro u h
        exact Option.noConfusion h
      · intro u h
        have h2 := hI.live_ref u h
        rw [hu] at h2
        exact Option.noConfusion h2
      · intro h
        exact Bool.noConfusion h
      · intro h
        exact Bool.noConfusion h
      · intro h
        have h2 := hI.rec_inv h
        exact ⟨h2.1, rfl, h2.2.2⟩
  | some u =>
      have he : s.effectUrl = some u := hI.effect_eq.trans hu
      have hcr := hI.url_live u hu
      have hs : unmountComponent s =
          { s with
             store := revokeUrl u s.store
             timerActive := false
             effectUrl := none
             comp := { s.comp with audioUrl := none }
             mounted := false } := by
        simp [unmountComponent, he]
      rw [hs]
      refine ⟨rfl, ?_, ?_, hI.created_lt, ?_, hI.pending_eq, ?_, ?_, ?_⟩
      · intro v hv
        exact Option.noConfusion hv
      · intro v hv
        have hv' : s.store.created v = true ∧ (revokeUrl u s.store).revokeCount v = 0 := hv
        obtain ⟨hc, hr⟩ := hv'
        by_cases hvu : v = u
        · subst hvu
          rw [revokeUrl_count_self] at hr
          exact absurd hr (by simp)
        · rw [revokeUrl_count_other _ hvu] at hr
          have h2 := hI.live_ref v ⟨hc, hr⟩
          rw [hu] at h2
          injection h2 with h3
          exact absurd h3.symm hvu
      · intro v hc
        have hc' : s.store.created v = false := hc
        by_cases hvu : v = u
        · subst hvu
          rw [hcr.1] at hc'
          exact Bool.noConfusion hc'
        · show (revokeUrl u s.store).revokeCount v = 0
          rw [revokeUrl_count_other _ hvu]
          exact hI.uncreated_unrevoked v hc'
      · intro h
        exact Bool.noConfusion h
      · intro h
        exact Bool.noConfusion h
      · intro h
        have h2 := hI.rec_inv h
        exact ⟨h2.1, rfl, h2.2.2⟩

theorem inv_step {s : Session} (hI : Inv s) (e : Event) : Inv (step s e) := by
  by_cases hm : s.mounted = true
  · cases e with
    | startClick g m =>
        show Inv (if s.mounted = true then
          if recordControl s.comp = .enabled ∧ s.comp.isRecording = false then
            startRecording g m s else s
          else s)
        rw [if_pos hm]
        by_cases hg : recordControl s.comp = .enabled ∧ s.comp.isRecording = false
        · rw [if_pos hg]
          exact inv_startRecording g m hI (recordControl_enabled hg.1).1 hg.2
        · rw [if_neg hg]
          exact hI
    | stopClick =>
        show Inv (if s.mounted = true then
          if recordControl s.comp = .enabled ∧ s.comp.isRecording = true then
            stopRecording s else s
          else s)
        rw [if_pos hm]
        by_cases hg : recordControl s.comp = .enabled ∧ s.comp.isRecording = true
        · rw [if_pos hg]
          exact inv_stopRecording hI
        · rw [if_neg hg]
          exact hI
    | tick =>
        show Inv (if s.mounted = true then timerTick s else s)
        rw [if_pos hm]
        exact inv_timerTick hI
    | discardClick =>
        show Inv (if s.mounted = true then
          if s.comp.audioUrl ≠ none then discardRecording s else s
          else s)
        rw [if_pos hm]
        by_cases hg : s.comp.audioUrl ≠ none
        · rw [if_pos hg]
          exact inv_discardRecording hI
        · rw [if_neg hg]
          exact hI
    | playPauseClick =>
        show Inv (if s.mounted = true then
          if s.comp.audioUrl ≠ none then handlePlayPause s else s
          else s)
        rw [if_pos hm]
        by_cases hg : s.comp.audioUrl ≠ none
        · rw [if_pos hg]
          exact inv_handlePlayPause hI
        · rw [if_neg hg]
          exact hI
    | audioEnded =>
        show Inv (if s.mounted = true then handleAudioEnded s else s)
        rw [if_pos hm]
        exact inv_handleAudioEnded hI
    | submitClick =>
        show Inv (if s.mounted = true then
          if submitControl s.comp = .enabled then sendAudioToAPIStart s else s
          else s)
        rw [if_pos hm]
        by_cases hg : submitControl s.comp = .enabled
        · rw [if_pos hg]
          exact inv_sendAudioToAPIStart hI (submitControl_enabled hg).2
        · rw [if_neg hg]
          exact hI
    | submitSettles o =>
        show Inv (if s.mounted = true then
          if s.pending = 1 then sendAudioToAPIResolve o s else s
          else s)
        rw [if_pos hm]
        by_cases hg : s.pending = 1
        · rw [if_pos hg]
          exact inv_sendAudioToAPIResolve o hI hg
        · rw [if_neg hg]
          exact hI
    | permChange p =>
        show Inv (if s.mounted = true then
          { s with comp := { s.comp with micPermission := p } } else s)
        rw [if_pos hm]
        exact ⟨hI.effect_eq, hI.url_live, hI.live_ref, hI.created_lt,
          hI.uncreated_unrevoked, hI.pending_eq, hI.timer_rec, hI.timer_closure,
          hI.rec_inv⟩
    | unmount =>
        show Inv (if s.mounted = true then unmountComponent s else s)
        rw [if_pos hm]
        exact inv_unmountComponent hI
  · have hs : step s e = s := by
      unfold step
      rw [if_neg hm]
    rw [hs]
    exact hI

theorem inv_foldl (l : List Event) :
    ∀ s : Session, Inv s → Inv (l.foldl step s) := by
  induction l with
  | nil => intro s hI; exact hI
  | cons e t ih =>
      intro s hI
      exact ih (step s e) (inv_step hI e)

/-- Every reachable session satisfies the invariant. -/
theorem inv_run (l : List Event) : Inv (run l) :=
  inv_foldl l initSession inv_init

/-! ## Step equations -/

theorem step_tick {s : Session} (hm : s.mounted = true) :
    step s Event.tick = timerTick s := by
  unfold step
  rw [if_pos hm]

theorem step_startClick {s : Session} (g : Bool) (m : String) (hm : s.mounted = true)
    (hg : recordControl s.comp = .enabled ∧ s.comp.isRecording = false) :
    step s (Event.startClick g m) = startRecording g m s := by
  show (if s.mounted = true then
    if recordControl s.comp = .enabled ∧ s.comp.isRecording = false then
      startRecording g m s else s
    else s) = startRecording g m s
  rw [if_pos hm, if_pos hg]

theorem step_startClick_noop {s : Session} (g : Bool) (m : String)
    (hg : ¬(recordControl s.comp = .enabled ∧ s.comp.isRecording = false)) :
    step s (Event.startClick g m) = s := by
  show (if s.mounted = true then
    if recordControl s.comp = .enabled ∧ s.comp.isRecording = false then
      startRecording g m s else s
    else s) = s
  by_cases hm : s.mounted = true
  · rw [if_pos hm, if_neg hg]
  · rw [if_neg hm]

theorem step_stopClick {s : Session} (hm : s.mounted = true)
    (hg : recordControl s.comp = .enabled ∧ s.comp.isRecording = true) :
    step s Event.stopClick = stopRecording s := by
  show (if s.mounted = true then
    if recordControl s.comp = .enabled ∧ s.comp.isRecording = true then
      stopRecording s else s
    else s) = stopRecording s
  rw [if_pos hm, if_pos hg]

theorem step_discardClick {s : Session} (hm : s.mounted = true)
    (hg : s.comp.audioUrl ≠ none) :
    step s Event.discardClick = discardRecording s := by
  show (if s.mounted = true then
    if s.comp.audioUrl ≠ none then discardRecording s else s
    else s) = discardRecording s
  rw [if_pos hm, if_pos hg]

theorem step_submitClick {s : Session} (hm : s.mounted = true)
    (hg : submitControl s.comp = .enabled) :
    step s Event.submitClick = sendAudioToAPIStart s := by
  show (if s.mounted = true then
    if submitControl s.comp = .enabled then sendAudioToAPIStart s else s
    else s) = sendAudioToAPIStart s
  rw [if_pos hm, if_pos hg]

theorem step_submitClick_noop {s : Session} (hg : ¬(submitControl s.comp = .enabled)) :
    step s Event.submitClick = s := by
  show (if s.mounted = true then
    if submitControl s.comp = .enabled then sendAudioToAPIStart s else s
    else s) = s
  by_cases hm : s.mounted = true
  · rw [if_pos hm, if_neg hg]
  · rw [if_neg hm]

theorem step_submitSettles {s : Session} (o : FetchOutcome) (hm : s.mounted = true)
    (hg : s.pending = 1) :
    step s (Event.submitSettles o) = sendAudioToAPIResolve o s := by
  show (if s.mounted = true then
    if s.pending = 1 then sendAudioToAPIResolve o s else s
    else s) = sendAudioToAPIResolve o s
  rw [if_pos hm, if_pos hg]

theorem step_unmount {s : Session} (hm : s.mounted = true) :
    step s Event.unmount = unmountComponent s := by
  unfold step
  rw [if_pos hm]

/-! ## Handler-level facts -/

theorem effectCycle_comp (s : Session) : (effectCycle s).comp = s.comp := by
  unfold effectCycle
  split
  · rfl
  · rfl

theorem recorderOnstop_isRecording (s : Session) :
    (recorderOnstop s).comp.isRecording = s.comp.isRecording := by
  unfold recorderOnstop
  rw [effectCycle_comp]

theorem effectCycle_recorder (s : Session) : (effectCycle s).recorder = s.recorder := by
  unfold effectCycle
  split
  · rfl
  · rfl

theorem recorderOnstop_recorder (s : Session) :
    (recorderOnstop s).recorder = s.recorder := by
  unfold recorderOnstop
  rw [effectCycle_recorder]

/-! ## Submit-flow helper lemmas -/

theorem append_ne_empty_of_left (p m : String) (hp : p.data ≠ []) : p ++ m ≠ "" := by
  intro h
  have hd : p.data ++ m.data = [] := congrArg String.data h
  exact hp (List.append_eq_nil.mp hd).1

theorem submitControl_enabled_of (c : ComponentState) (hu : c.audioUrl ≠ none)
    (hl : c.isLoading = false) : submitControl c = .enabled := by
  unfold submitControl
  cases hau : c.audioUrl with
  | none => exact absurd hau hu
  | some u =>
      rw [hl]
      rfl

theorem sendAudioToAPIStart_eq {s : Session} (hu : s.comp.audioUrl ≠ none) :
    sendAudioToAPIStart s =
      { s with
         comp := { s.comp with isLoading := true, error := "" }
         pending := s.pending + 1
         requestsIssued := s.requestsIssued + 1 } := by
  cases hau : s.comp.audioUrl with
  | none => exact absurd hau hu
  | some u => simp [sendAudioToAPIStart, hau]

/-- The failure class of a settled submit: transport/parse failure, an
HTTP status ≥ 400, or a body carrying a (truthy) error field. -/
def failedOutcome (o : FetchOutcome) : Prop :=
  match o with
  | .networkError _ => True
  | .response st d => 400 ≤ st ∨ d.error ≠ ""

theorem resolveComp_failed (o : FetchOutcome) (c : ComponentState)
    (hf : failedOutcome o) :
    (sendAudioToAPIResolveComp o c).error ≠ "" ∧
    (sendAudioToAPIResolveComp o c).transcription = c.transcription := by
  cases o with
  | networkError m =>
      exact ⟨append_ne_empty_of_left _ _ (by decide), rfl⟩
  | response st d =>
      simp only [sendAudioToAPIResolveComp]
      by_cases hok : (!responseOk st) = true
      · rw [if_pos hok]
        exact ⟨append_ne_empty_of_left _ _ (by decide), rfl⟩
      · rw [if_neg hok]
        have herr : d.error ≠ "" := by
          rcases hf with h400 | herr
          · exfalso
            apply hok
            unfold responseOk
            simp
            omega
          · exact herr
        rw [if_pos herr]
        exact ⟨append_ne_empty_of_left _ _ (by decide), rfl⟩

/-! ## Claim theorems -/

/-- C9: `stopRecording` is a no-op when no recorder exists or the
recording flag is false — it changes no state, stops no tracks and
reports no error (the session is returned unchanged) — and therefore
invoking it twice in a row is equivalent to invoking it once. -/
theorem C9_stopRecording_noop_idempotent (s : Session) :
    (¬(s.recorder = true ∧ s.comp.isRecording = true) → stopRecording s = s) ∧
    stopRecording (stopRecording s) = stopRecording s := by
  have hnoop : ∀ t : Session, ¬(t.recorder = true ∧ t.comp.isRecording = true) →
      stopRecording t = t := by
    intro t ht
    have hb : ¬((t.recorder && t.comp.isRecording) = true) := by
      intro hb
      simp only [Bool.and_eq_true] at hb
      exact ht hb
    unfold stopRecording stopRecordingWith
    rw [if_neg hb]
  constructor
  · exact hnoop s
  · by_cases hg : (s.recorder && s.comp.isRecording) = true
    · have hfalse : (stopRecording s).comp.isRecording = false := by
        unfold stopRecording stopRecordingWith
        rw [if_pos hg, recorderOnstop_isRecording]
      refine hnoop _ ?_
      intro h
      rw [hfalse] at h
      exact Bool.noConfusion h.2
    · have h1 : stopRecording s = s := by
        unfold stopRecording stopRecordingWith
        rw [if_neg hg]
      rw [h1]
      exact h1

/-- C9 witness: at the initial session (no recorder, not recording) the
no-op clause applies concretely. -/
theorem C9_witness : stopRecording initSession = initSession :=
  (C9_stopRecording_noop_idempotent initSession).1 (by decide)

/-- C10: `sendAudioToAPI` never modifies the finalized audio reference:
neither its synchronous prefix nor its continuation changes `audioUrl`
or the URL store (so the recording the URL denotes is untouched), and
with no reference present the prefix is an early return leaving the
whole session unchanged. -/
theorem C10_submit_frame (s : Session) (o : FetchOutcome) :
    (sendAudioToAPIStart s).comp.audioUrl = s.comp.audioUrl ∧
    (sendAudioToAPIStart s).store = s.store ∧
    (sendAudioToAPIResolve o s).comp.audioUrl = s.comp.audioUrl ∧
    (sendAudioToAPIResolve o s).store = s.store ∧
    (s.comp.audioUrl = none → sendAudioToAPIStart s = s) := by
  obtain ⟨hau, -, -, -⟩ := resolveComp_frame o s.comp
  refine ⟨?_, ?_, hau, rfl, ?_⟩
  · cases hu : s.comp.audioUrl with
    | none => simp [sendAudioToAPIStart, hu]
    | some u => simp [sendAudioToAPIStart, hu]
  · cases hu : s.comp.audioUrl with
    | none => simp [sendAudioToAPIStart, hu]
    | some u => simp [sendAudioToAPIStart, hu]
  · intro hu
    simp [sendAudioToAPIStart, hu]

/-- C10 witness: the early-return clause applied at the initial session
(no audio reference). -/
theorem C10_witness : sendAudioToAPIStart initSession = initSession :=
  (C10_submit_frame initSession (FetchOutcome.networkError "x")).2.2.2.2 rfl

/-- C6: the proxy `POST` handler answers every failure inside its `try`
block — reading the inbound form, the forward `fetch`, or parsing the
upstream response — with the fixed internal-error JSON and status 500,
and otherwise relays the parsed upstream JSON body verbatim. -/
theorem C6_proxy_relay (o : ProxyTryOutcome) :
    ((o = .inboundFormError ∨ o = .upstreamFetchError ∨ o = .upstreamParseError) →
       apiSttPOST o = ⟨500, internalErrorBody⟩) ∧
    (∀ body, o = .upstreamJson body → apiSttPOST o = ⟨200, body⟩) := by
  constructor
  · intro h
    rcases h with h | h | h <;> rw [h] <;> rfl
  · intro body h
    rw [h]
    rfl

/-- C6 witness: both branches exercised at concrete outcomes. -/
theorem C6_witness :
    apiSttPOST ProxyTryOutcome.upstreamFetchError = ⟨500, internalErrorBody⟩ ∧
    apiSttPOST (ProxyTryOutcome.upstreamJson (Json.str "ok")) = ⟨200, Json.str "ok"⟩ :=
  ⟨(C6_proxy_relay ProxyTryOutcome.upstreamFetchError).1 (Or.inr (Or.inl rfl)),
   (C6_proxy_relay (ProxyTryOutcome.upstreamJson (Json.str "ok"))).2 (Json.str "ok") rfl⟩

/-- C7: MIME selection picks the first supported type in the order
audio/webm, audio/mp4, audio/aac, audio/wav, and `none` (the platform
default) when none is supported; the finalized blob's type is audio/mp4
on the restrictive mobile platform (iOS) and audio/wav otherwise. -/
theorem C7_mime_selection (sup : String → Bool) :
    selectMimeType sup =
      (if sup "audio/webm" then some "audio/webm"
       else if sup "audio/mp4" then some "audio/mp4"
       else if sup "audio/aac" then some "audio/aac"
       else if sup "audio/wav" then some "audio/wav"
       else none) ∧
    finalBlobType true = "audio/mp4" ∧
    finalBlobType false = "audio/wav" := by
  refine ⟨?_, rfl, rfl⟩
  unfold selectMimeType mimeTypes
  cases h1 : sup "audio/webm" <;> cases h2 : sup "audio/mp4" <;>
    cases h3 : sup "audio/aac" <;> cases h4 : sup "audio/wav" <;>
    simp [List.find?, h1, h2, h3, h4]

/-- C3 counterexample: the configured value is `microphone=*`, whose
allowlist also permits microphone use to an origin different from the
page's own origin — the policy is not scoped to the page's own origin. -/
theorem C3_counterexample :
    headersForPath "/api/stt" = [("Permissions-Policy", "microphone=*")] ∧
    parseDirective "microphone=*" = some ("microphone", [AllowlistEntry.star]) ∧
    allowlistPermits [AllowlistEntry.star] "https://attacker.example" "https://app.example"
      = true ∧
    "https://attacker.example" ≠ "https://app.example" := by
  refine ⟨?_, ?_, rfl, by decide⟩
  · rfl
  · rfl

/-- C3 (amended): every response carries a Permissions-Policy header
whose microphone allowlist permits every requesting origin — in
particular the page's own origin — rather than being scoped to the
page's own origin only. -/
theorem C3_header_policy (path : String) (hp : path.toList.head? = some '/') :
    ∃ v, ("Permissions-Policy", v) ∈ headersForPath path ∧
      ∃ al, parseDirective v = some ("microphone", al) ∧
        ∀ reqOrigin pageOrigin : String,
          allowlistPermits al reqOrigin pageOrigin = true := by
  refine ⟨"microphone=*", ?_, [AllowlistEntry.star], ?_, ?_⟩
  · have hp' : path.data.head? = some '/' := hp
    unfold headersForPath nextConfigHeaderRules sourceMatches
    simp [hp']
  · rfl
  · intro a b
    rfl

/-- C3 witness: the amended theorem applied at the proxy's own path. -/
theorem C3_witness :
    ∃ v, ("Permissions-Policy", v) ∈ headersForPath "/api/stt" ∧
      ∃ al, parseDirective v = some ("microphone", al) ∧
        ∀ reqOrigin pageOrigin : String,
          allowlistPermits al reqOrigin pageOrigin = true :=
  C3_header_policy "/api/stt" (by decide)

/-- C1 counterexample: after a successful submit sets the transcript
"abc", a second submit of the same recording settling with an error
body displays an error AND still displays the stale transcript "abc" —
the failed submit does not clear the prior transcript. -/
theorem C1_counterexample :
    let s := run [Event.startClick true "", Event.stopClick, Event.submitClick,
      Event.submitSettles (FetchOutcome.response 200 ⟨"", "abc"⟩), Event.submitClick,
      Event.submitSettles (FetchOutcome.response 200 ⟨"boom", ""⟩)]
    errorShown s.comp = true ∧
    transcriptionShown s.comp = true ∧
    s.comp.transcription = "abc" := by
  decide

/-- C1 (amended): when a submit of the finalized recording settles with
a failing outcome (error field, HTTP status ≥ 400, or transport
failure), the UI displays an error, but the transcription state —
including the transcript of a prior successful call — is unchanged, so
stale transcript text from the prior success remains displayed
alongside the error. -/
theorem C1_failed_submit_keeps_stale_transcript (l : List Event) (o : FetchOutcome)
    (hm : (run l).mounted = true)
    (hu : (run l).comp.audioUrl ≠ none)
    (hl : (run l).comp.isLoading = false)
    (hf : failedOutcome o) :
    errorShown (step (step (run l) Event.submitClick)
      (Event.submitSettles o)).comp = true ∧
    (step (step (run l) Event.submitClick)
      (Event.submitSettles o)).comp.transcription = (run l).comp.transcription := by
  have hI := inv_run l
  have henab : submitControl (run l).comp = .enabled :=
    submitControl_enabled_of _ hu hl
  have hp0 : (run l).pending = 0 := by
    rw [hI.pending_eq, hl]
    rfl
  have hs1 := sendAudioToAPIStart_eq hu
  have hm1 : (sendAudioToAPIStart (run l)).mounted = true := by
    rw [hs1]
    exact hm
  have hp1 : (sendAudioToAPIStart (run l)).pending = 1 := by
    rw [hs1]
    show (run l).pending + 1 = 1
    rw [hp0]
  have htr1 : (sendAudioToAPIStart (run l)).comp.transcription
      = (run l).comp.transcription := by
    rw [hs1]
  rw [step_submitClick hm henab, step_submitSettles o hm1 hp1]
  obtain ⟨hne, htr⟩ := resolveComp_failed o (sendAudioToAPIStart (run l)).comp hf
  constructor
  · show decide ((sendAudioToAPIResolveComp o
      (sendAudioToAPIStart (run l)).comp).error ≠ "") = true
    exact decide_eq_true hne
  · show (sendAudioToAPIResolveComp o (sendAudioToAPIStart (run l)).comp).transcription
      = (run l).comp.transcription
    rw [htr, htr1]

/-- C1 witness: the amended theorem exercised on a concrete session with
a transport failure on the second submit. -/
theorem C1_witness :
    errorShown (step (step (run [Event.startClick true "", Event.stopClick])
      Event.submitClick) (Event.submitSettles (FetchOutcome.networkError "down"))).comp
      = true ∧
    (step (step (run [Event.startClick true "", Event.stopClick]) Event.submitClick)
      (Event.submitSettles (FetchOutcome.networkError "down"))).comp.transcription
      = (run [Event.startClick true "", Event.stopClick]).comp.transcription :=
  C1_failed_submit_keeps_stale_transcript [Event.startClick true "", Event.stopClick]
    (FetchOutcome.networkError "down") (by decide) (by decide) (by decide) trivial

/-- C5 counterexample: an HTTP-success body carrying BOTH a non-empty
transcript field and an error field. The claim's success clause demands
the transcript "hi" be shown, but the code checks the error field
first: the transcript state stays empty and an error is displayed. -/
theorem C5_counterexample :
    let s := run [Event.startClick true "", Event.stopClick, Event.submitClick,
      Event.submitSettles (FetchOutcome.response 200 ⟨"x", "hi"⟩)]
    s.comp.transcription = "" ∧
    s.comp.error = "Failed to convert speech to text: x" := by
  decide

/-- C5 (amended): for a submit of a finalized recording — HTTP-success
JSON with NO error field and a non-empty transcript shows exactly that
transcript (and no error); an HTTP error status, an error field (which
takes precedence over any transcript), an empty/missing transcript, or
a transport/parse failure each yield the corresponding human-readable
error message; exactly one request is issued and nothing stays in
flight — no retry. -/
theorem C5_submit_responses (l : List Event) (o : FetchOutcome) (s2 : Session)
    (hm : (run l).mounted = true)
    (hu : (run l).comp.audioUrl ≠ none)
    (hl : (run l).comp.isLoading = false)
    (hs2 : s2 = step (step (run l) Event.submitClick) (Event.submitSettles o)) :
    (∀ st d, o = .response st d → responseOk st = true → d.error = "" → d.output ≠ "" →
       s2.comp.transcription = d.output ∧ s2.comp.error = "") ∧
    (∀ st d, o = .response st d → responseOk st = false →
       s2.comp.error = "Failed to convert speech to text: HTTP error! status: "
         ++ toString st ∧ errorShown s2.comp = true) ∧
    (∀ st d, o = .response st d → responseOk st = true → d.error ≠ "" →
       s2.comp.error = "Failed to convert speech to text: " ++ d.error ∧
       errorShown s2.comp = true) ∧
    (∀ st d, o = .response st d → responseOk st = true → d.error = "" → d.output = "" →
       s2.comp.error = "Unexpected response format from API" ∧
       errorShown s2.comp = true) ∧
    (∀ msg, o = .networkError msg →
       s2.comp.error = "Failed to convert speech to text: " ++ msg ∧
       errorShown s2.comp = true) ∧
    s2.requestsIssued = (run l).requestsIssued + 1 ∧
    s2.pending = 0 := by
  have hI := inv_run l
  have henab : submitControl (run l).comp = .enabled :=
    submitControl_enabled_of _ hu hl
  have hp0 : (run l).pending = 0 := by
    rw [hI.pending_eq, hl]
    rfl
  have hs1 := sendAudioToAPIStart_eq hu
  have hm1 : (sendAudioToAPIStart (run l)).mounted = true := by
    rw [hs1]
    exact hm
  have hp1 : (sendAudioToAPIStart (run l)).pending = 1 := by
    rw [hs1]
    show (run l).pending + 1 = 1
    rw [hp0]
  have herr1 : (sendAudioToAPIStart (run l)).comp.error = "" := by
    rw [hs1]
  have hreq1 : (sendAudioToAPIStart (run l)).requestsIssued
      = (run l).requestsIssued + 1 := by
    rw [hs1]
  rw [step_submitClick hm henab, step_submitSettles o hm1 hp1] at hs2
  subst hs2
  refine ⟨?_, ?_, ?_, ?_, ?_, hreq1, ?_⟩
  · intro st d ho hok he hout
    subst ho
    have hnotok : ¬((!responseOk st) = true) := by
      rw [hok]
      decide
    constructor
    · show (sendAudioToAPIResolveComp (.response st d)
        (sendAudioToAPIStart (run l)).comp).transcription = d.output
      simp only [sendAudioToAPIResolveComp]
      rw [if_neg hnotok, if_neg (fun h => h he), if_pos hout]
    · show (sendAudioToAPIResolveComp (.response st d)
        (sendAudioToAPIStart (run l)).comp).error = ""
      simp only [sendAudioToAPIResolveComp]
      rw [if_neg hnotok, if_neg (fun h => h he), if_pos hout]
      exact herr1
  · intro st d ho hok
    subst ho
    have hok' : (!responseOk st) = true := by
      rw [hok]
      rfl
    have he : (sendAudioToAPIResolveComp (.response st d)
        (sendAudioToAPIStart (run l)).comp).error
        = "Failed to convert speech to text: HTTP error! status: " ++ toString st := by
      simp only [sendAudioToAPIResolveComp]
      rw [if_pos hok']
    refine ⟨he, ?_⟩
    show decide ((sendAudioToAPIResolveComp (.response st d)
      (sendAudioToAPIStart (run l)).comp).error ≠ "") = true
    rw [he]
    exact decide_eq_true (append_ne_empty_of_left _ _ (by decide))
  · intro st d ho hok herr
    subst ho
    have hnotok : ¬((!responseOk st) = true) := by
      rw [hok]
      decide
    have he : (sendAudioToAPIResolveComp (.response st d)
        (sendAudioToAPIStart (run l)).comp).error
        = "Failed to convert speech to text: " ++ d.error := by
      simp only [sendAudioToAPIResolveComp]
      rw [if_neg hnotok, if_pos herr]
    refine ⟨he, ?_⟩
    show decide ((sendAudioToAPIResolveComp (.response st d)
      (sendAudioToAPIStart (run l)).comp).error ≠ "") = true
    rw [he]
    exact decide_eq_true (append_ne_empty_of_left _ _ (by decide))
  · intro st d ho hok he hout
    subst ho
    have hnotok : ¬((!responseOk st) = true) := by
      rw [hok]
      decide
    have he2 : (sendAudioToAPIResolveComp (.response st d)
        (sendAudioToAPIStart (run l)).comp).error
        = "Unexpected response format from API" := by
      simp only [sendAudioToAPIResolveComp]
      rw [if_neg hnotok, if_neg (fun h => h he), if_neg (fun h => h hout)]
    refine ⟨he2, ?_⟩
    show decide ((sendAudioToAPIResolveComp (.response st d)
      (sendAudioToAPIStart (run l)).comp).error ≠ "") = true
    rw [he2]
    exact decide_eq_true (by decide)
  · intro msg ho
    subst ho
    refine ⟨rfl, ?_⟩
    show decide ((sendAudioToAPIResolveComp (.networkError msg)
      (sendAudioToAPIStart (run l)).comp).error ≠ "") = true
    exact decide_eq_true (append_ne_empty_of_left _ _ (by decide))
  · show (sendAudioToAPIStart (run l)).pending - 1 = 0
    rw [hp1]

/-- C5 witness: the success and error-status branches exercised on a
concrete session. -/
theorem C5_witness :
    (step (step (run [Event.startClick true "", Event.stopClick]) Event.submitClick)
      (Event.submitSettles (FetchOutcome.response 200 ⟨"", "hello"⟩))).comp.transcription
      = "hello" :=
  ((C5_submit_responses [Event.startClick true "", Event.stopClick]
      (FetchOutcome.response 200 ⟨"", "hello"⟩) _
      (by decide) (by decide) (by decide) rfl).1
    200 ⟨"", "hello"⟩ rfl (by decide) rfl (by decide)).1

/-- C2 counterexample: in the session reached by record → stop, object
URL 0 is live with zero revocations; discarding then revokes it TWICE
(once directly in `discardRecording` and once via the effect cleanup
that runs because `audioUrl` changed) — not exactly once. -/
theorem C2_counterexample :
    (run [Event.startClick true "", Event.stopClick]).store.revokeCount 0 = 0 ∧
    (run [Event.startClick true "", Event.stopClick,
      Event.discardClick]).store.revokeCount 0 = 2 := by
  decide

/-- C2 (amended): at most one audio reference is live at any time, and
the referenced URL is never revoked while still referenced; component
teardown revokes the current reference exactly once; starting a new
recording while a finalized reference exists is impossible (the record
button is not rendered, so the click is a no-op and revokes nothing);
but discarding revokes the current reference exactly TWICE — once
directly and once via the effect cleanup — not exactly once. -/
theorem C2_reference_lifecycle (l : List Event) (u : Nat) (g : Bool) (m : String)
    (hu : (run l).comp.audioUrl = some u)
    (hm : (run l).mounted = true) :
    ((run l).store.created u = true ∧ (run l).store.revokeCount u = 0) ∧
    (∀ v, (run l).store.isLive v → v = u) ∧
    step (run l) (Event.startClick g m) = run l ∧
    (step (run l) Event.unmount).store.revokeCount u = 1 ∧
    (step (run l) Event.discardClick).store.revokeCount u = 2 := by
  have hI := inv_run l
  have hcr := hI.url_live u hu
  have he : (run l).effectUrl = some u := hI.effect_eq.trans hu
  refine ⟨hcr, ?_, ?_, ?_, ?_⟩
  · intro v hv
    have h2 := hI.live_ref v hv
    rw [hu] at h2
    injection h2 with h3
    exact h3.symm
  · refine step_startClick_noop g m ?_
    intro hcond
    have h4 := (recordControl_enabled hcond.1).1
    rw [hu] at h4
    exact Option.noConfusion h4
  · rw [step_unmount hm]
    unfold unmountComponent
    rw [he]
    show (revokeUrl u (run l).store).revokeCount u = 1
    rw [revokeUrl_count_self, hcr.2]
  · have hne : (run l).comp.audioUrl ≠ none := by
      rw [hu]
      intro h
      exact Option.noConfusion h
    rw [step_discardClick hm hne, discardRecording_eq hu he]
    show (revokeUrl u (revokeUrl u (run l).store)).revokeCount u = 2
    rw [revokeUrl_count_self, revokeUrl_count_self, hcr.2]

/-- C2 witness: the discard clause concretely — the double revoke after
record → stop → discard. -/
theorem C2_witness :
    (step (run [Event.startClick true "", Event.stopClick])
      Event.discardClick).store.revokeCount 0 = 2 :=
  (C2_reference_lifecycle [Event.startClick true "", Event.stopClick] 0 true ""
    (by decide) (by decide)).2.2.2.2

set_option maxRecDepth 10000

/-- C4: the countdown does start at 120 and tick down to 0, but the
auto-stop at 0 is dead code — the interval callback invokes the
`stopRecording` closure of the render that installed it, whose captured
`isRecording` is `false`, so the guard fails.  Evaluating the code on
the failing input (start recording, then let the interval fire 120
times): the countdown reads 0 and the interval is cleared, yet the
session is still recording, the stream tracks are still live, and no
audio object URL was ever created — no transition to the stopped state
with a finalized audio object happens, contrary to the claim (which
matches the code's evident intent at the `stopRecording()` call in the
timeout branch). -/
theorem C4_autostop_dead :
    (run (Event.startClick true "" :: List.replicate 120 Event.tick)).comp.remainingTime
      = 0 ∧
    (run (Event.startClick true "" :: List.replicate 120 Event.tick)).timerActive
      = false ∧
    (run (Event.startClick true "" :: List.replicate 120 Event.tick)).comp.isRecording
      = true ∧
    (run (Event.startClick true "" :: List.replicate 120 Event.tick)).comp.audioUrl
      = none ∧
    (run (Event.startClick true "" :: List.replicate 120 Event.tick)).tracksLive
      = true ∧
    (run (Event.startClick true "" :: List.replicate 120 Event.tick)).store.nextId
      = 0 := by
  decide

/-- C8: the submit control is rendered and enabled exactly when a
finalized recording exists and no submit is pending; at most one
request is ever in flight; and clicking submit while one is pending is
a no-op, so no two submissions can be in flight concurrently. -/
theorem C8_submit_gating (l : List Event) :
    (submitControl (run l).comp = .enabled ↔
       (run l).comp.audioUrl ≠ none ∧ (run l).comp.isLoading = false) ∧
    (run l).pending ≤ 1 ∧
    ((run l).comp.isLoading = true → step (run l) Event.submitClick = run l) := by
  have hI := inv_run l
  refine ⟨⟨?_, ?_⟩, ?_, ?_⟩
  · intro h
    exact submitControl_enabled h
  · intro h
    exact submitControl_enabled_of _ h.1 h.2
  · rw [hI.pending_eq]
    split
    · exact le_refl 1
    · exact Nat.zero_le 1
  · intro hload
    refine step_submitClick_noop ?_
    intro hen
    rw [(submitControl_enabled hen).2] at hload
    exact Bool.noConfusion hload

/-- C8 witness: clicking submit during a pending submit on a concrete
session is a no-op. -/
theorem C8_witness :
    step (run [Event.startClick true "", Event.stopClick, Event.submitClick])
      Event.submitClick
      = run [Event.startClick true "", Event.stopClick, Event.submitClick] :=
  (C8_submit_gating [Event.startClick true "", Event.stopClick,
    Event.submitClick]).2.2 (by decide)

end SttApp
